import Mathlib

/-!
Shallow embedding of the defi-collector pipeline: contract resolution
(`contract_finder.py`), interface retrieval (`abi_fetcher.py`), event
signature extraction (`event_extractor.py`) and the per-protocol
orchestration loop (`main.py`).  Python/JSON values are modelled by the
inductive `PyVal`; Python exceptions are modelled by `Except PyErr`;
strings are manipulated through their character lists so that every
definition evaluates inside the kernel.
-/

/-- Model of a Python/JSON value as passed around the pipeline
(`None`, booleans, integers, strings, lists and dicts). -/
inductive PyVal where
  | none
  | bool (b : Bool)
  | int (n : Int)
  | str (s : String)
  | list (xs : List PyVal)
  | dict (kvs : List (String × PyVal))

/-- Python exception kinds relevant to the embedded code: attribute access
on a value without that attribute, and iterating a non-iterable. -/
inductive PyErr where
  | attributeError
  | typeError
  deriving DecidableEq

/-- Python truthiness (`bool(v)`) for the modelled value kinds. -/
def pyTruthy : PyVal → Bool
  | PyVal.none => false
  | PyVal.bool b => b
  | PyVal.int n => n != 0
  | PyVal.str s => !s.isEmpty
  | PyVal.list xs => !xs.isEmpty
  | PyVal.dict kvs => !kvs.isEmpty

/-- Python `v.get(k, d)`: a dict lookup with default; on a non-dict value
the attribute access raises `AttributeError`. -/
def pyGetD (v : PyVal) (k : String) (d : PyVal) : Except PyErr PyVal :=
  match v with
  | PyVal.dict kvs => Except.ok (((kvs.find? (fun p => p.fst == k)).map Prod.snd).getD d)
  | _ => Except.error PyErr.attributeError

/-- Python `v.get(k)` (default `None`). -/
def pyGet (v : PyVal) (k : String) : Except PyErr PyVal :=
  pyGetD v k PyVal.none

/-- Python iteration `for x in v`: lists yield their items, strings yield
one-character strings, dicts yield their keys; other values raise
`TypeError`. -/
def pyIter : PyVal → Except PyErr (List PyVal)
  | PyVal.list xs => Except.ok xs
  | PyVal.str s => Except.ok (s.data.map (fun c => PyVal.str (String.mk [c])))
  | PyVal.dict kvs => Except.ok (kvs.map (fun p => PyVal.str p.fst))
  | _ => Except.error PyErr.typeError

mutual
/-- Python `repr(v)` (string escaping inside reprs is not modelled; no
claim depends on it). -/
def pyRepr : PyVal → String
  | PyVal.none => "None"
  | PyVal.bool b => if b then "True" else "False"
  | PyVal.int n => toString n
  | PyVal.str s => "'" ++ s ++ "'"
  | PyVal.list xs => "[" ++ String.intercalate ", " (pyReprList xs) ++ "]"
  | PyVal.dict kvs => "\x7b" ++ String.intercalate ", " (pyReprDict kvs) ++ "\x7d"

/-- Reprs of the elements of a list value. -/
def pyReprList : List PyVal → List String
  | [] => []
  | v :: vs => pyRepr v :: pyReprList vs

/-- Reprs of the entries of a dict value. -/
def pyReprDict : List (String × PyVal) → List String
  | [] => []
  | (k, v) :: kvs => ("'" ++ k ++ "': " ++ pyRepr v) :: pyReprDict kvs
end

/-- Python `str(v)` as used by f-string interpolation. -/
def pyStr (v : PyVal) : String :=
  match v with
  | PyVal.str s => s
  | _ => pyRepr v

/-- Python `v == "s"` for our values: only a string with the same
characters compares equal to a string literal. -/
def pyEqStr (v : PyVal) (s : String) : Bool :=
  match v with
  | PyVal.str t => t == s
  | _ => false

/-- ASCII lower-casing of one character (Python `str.lower` on the ASCII
protocol/event names used by this program). -/
def lowerChar (c : Char) : Char :=
  if 'A' ≤ c && c ≤ 'Z' then Char.ofNat (c.toNat + 32) else c

/-- ASCII upper-casing of one character. -/
def upperChar (c : Char) : Char :=
  if 'a' ≤ c && c ≤ 'z' then Char.ofNat (c.toNat - 32) else c

/-- Python `s.lower()` on a character list. -/
def lowerChars (cs : List Char) : List Char :=
  cs.map lowerChar

/-- Python `s.lower()` on a string. -/
def pyLower (s : String) : String :=
  String.mk (lowerChars s.data)

/-- Python whitespace as recognised by `str.strip` / `str.split`. -/
def isPySpace (c : Char) : Bool :=
  c == ' ' || c == '\t' || c == '\n' || c == '\r' || c == '\x0b' || c == '\x0c'

/-- Python `s.strip()` on a character list. -/
def stripChars (cs : List Char) : List Char :=
  ((cs.dropWhile isPySpace).reverse.dropWhile isPySpace).reverse

/-- Helper for `wordsChars`: accumulates the current word (reversed). -/
def wordsCharsAux : List Char → List Char → List (List Char)
  | cur, [] => if cur.isEmpty then [] else [cur.reverse]
  | cur, c :: cs =>
    if isPySpace c then
      if cur.isEmpty then wordsCharsAux [] cs
      else cur.reverse :: wordsCharsAux [] cs
    else wordsCharsAux (c :: cur) cs

/-- Python `s.split()` (split on whitespace runs, no empty parts). -/
def wordsChars (cs : List Char) : List (List Char) :=
  wordsCharsAux [] cs

/-- Helper for `splitOnChar`: accumulates the current segment (reversed). -/
def splitOnCharAux (sep : Char) (cur : List Char) : List Char → List (List Char)
  | [] => [cur.reverse]
  | d :: ds =>
    if d == sep then cur.reverse :: splitOnCharAux sep [] ds
    else splitOnCharAux sep (d :: cur) ds

/-- Python `s.split(sep)` for a one-character separator. -/
def splitOnChar (sep : Char) (cs : List Char) : List (List Char) :=
  splitOnCharAux sep [] cs

/-- Substring test: does `needle` occur contiguously inside `hay`
(Python `needle in hay`)? -/
def containsSub (needle : List Char) : List Char → Bool
  | [] => needle.isEmpty
  | c :: t => needle.isPrefixOf (c :: t) || containsSub needle t

/-- Python `", ".join(xs)`-style joining. -/
def joinSep (sep : String) : List String → String
  | [] => ""
  | [x] => x
  | x :: y :: xs => x ++ sep ++ joinSep sep (y :: xs)

/-!
Embedding of `event_extractor.py` (class `EventExtractor`).
-/

/-- Body of `EventExtractor._format_event_signature` before its
`try/except` wrapper: read `name` and `inputs`, return `""` for a falsy
name, otherwise render each input as `"<name> <type>"` with an `indexed`
suffix when the `indexed` flag is truthy, joined by `", "` inside
`Name(...)`. -/
def formatEventSignatureBody (eventAbi : PyVal) : Except PyErr String := do
  let eventName ← pyGetD eventAbi "name" (PyVal.str "")
  let inputs ← pyGetD eventAbi "inputs" (PyVal.list [])
  if !pyTruthy eventName then
    return ""
  else
    let items ← pyIter inputs
    let formatted ← items.mapM (fun inputItem => do
      let paramName ← pyGetD inputItem "name" (PyVal.str "")
      let paramType ← pyGetD inputItem "type" (PyVal.str "")
      let indexed ← pyGetD inputItem "indexed" (PyVal.bool false)
      if pyTruthy indexed then
        pure (pyStr paramName ++ " " ++ pyStr paramType ++ " indexed")
      else
        pure (pyStr paramName ++ " " ++ pyStr paramType))
    return pyStr eventName ++ "(" ++ joinSep ", " formatted ++ ")"

/-- `EventExtractor._format_event_signature`: the body under a catch-all
`except` that maps any exception to the empty string. -/
def formatEventSignature (eventAbi : PyVal) : String :=
  match formatEventSignatureBody eventAbi with
  | Except.ok s => s
  | Except.error _ => ""

/-- Loop body of `EventExtractor.extract_events`: for each item, read
`item.get('type')` (raising `AttributeError` on a non-dict item, not
caught here), and collect non-empty formatted signatures of the
`event`-typed entries. -/
def extractLoop : List PyVal → Except PyErr (List String)
  | [] => Except.ok []
  | it :: rest => do
    let t ← pyGet it "type"
    if pyEqStr t "event" then
      let s := formatEventSignature it
      let tail ← extractLoop rest
      pure (if s.isEmpty then tail else s :: tail)
    else
      extractLoop rest

/-- `EventExtractor.extract_events`: defensive guard
(`if not abi or not isinstance(abi, list): return []`) followed by the
extraction loop over the list's items. -/
def extractEventsPy (abi : PyVal) : Except PyErr (List String) :=
  match abi with
  | PyVal.list items => extractLoop items
  | _ => Except.ok []

/-- Loop body of `EventExtractor.get_event_names`: collect the truthy
`name` values of `event`-typed entries. -/
def namesLoop : List PyVal → Except PyErr (List PyVal)
  | [] => Except.ok []
  | it :: rest => do
    let t ← pyGet it "type"
    if pyEqStr t "event" then
      let n ← pyGet it "name"
      let tail ← namesLoop rest
      pure (if pyTruthy n then n :: tail else tail)
    else
      namesLoop rest

/-- `EventExtractor.get_event_names`: iterate the `abi` value directly
(no defensive guard in the source) and collect event names. -/
def getEventNamesPy (abi : PyVal) : Except PyErr (List PyVal) := do
  let items ← pyIter abi
  namesLoop items

/-- `EventExtractor.validate_event_signature`: both parentheses present,
non-empty stripped name segment, and every comma-separated parameter
segment (when the parameter part is non-empty) both non-empty and
splitting into at least two whitespace-separated tokens. -/
def validateEventSignature (signature : String) : Bool :=
  let cs := signature.data
  if !(cs.contains '(') || !(cs.contains ')') then false
  else
    let parts := splitOnChar '(' cs
    let namePart := parts.headD []
    let paramsPart := (splitOnChar ')' (parts.getD 1 [])).headD []
    if (stripChars namePart).isEmpty then false
    else if !(stripChars paramsPart).isEmpty then
      ((splitOnChar ',' paramsPart).map stripChars).all
        (fun p => !p.isEmpty && decide (2 ≤ (wordsChars p).length))
    else true

/-- The seven fixed buckets built by `EventExtractor.categorize_events`
(a Python dict with these keys in this insertion order). -/
structure Categories where
  transfer : List String
  swap : List String
  lending : List String
  staking : List String
  governance : List String
  bridge : List String
  other : List String
  deriving DecidableEq

/-- The initial `categories` dict of `categorize_events`: seven empty
buckets. -/
def emptyCategories : Categories :=
  ⟨[], [], [], [], [], [], []⟩

/-- Python `event.split('(')[0].lower()`: the lower-cased base name of an
event signature. -/
def baseName (event : String) : List Char :=
  lowerChars ((splitOnChar '(' event.data).headD [])

/-- Python `any(keyword in name for keyword in kws)`. -/
def kwMatch (kws : List (List Char)) (name : List Char) : Bool :=
  kws.any (fun k => containsSub k name)

/-- Keyword test of the `transfer` bucket of `categorize_events`. -/
def matchTransfer (nm : List Char) : Bool :=
  kwMatch ["transfer".data, "send".data, "receive".data] nm

/-- Keyword test of the `swap` bucket of `categorize_events`. -/
def matchSwap (nm : List Char) : Bool :=
  kwMatch ["swap".data, "trade".data, "exchange".data] nm

/-- Keyword test of the `lending` bucket of `categorize_events`. -/
def matchLending (nm : List Char) : Bool :=
  kwMatch ["deposit".data, "withdraw".data, "borrow".data, "repay".data, "lend".data] nm

/-- Keyword test of the `staking` bucket of `categorize_events`. -/
def matchStaking (nm : List Char) : Bool :=
  kwMatch ["stake".data, "unstake".data, "reward".data, "claim".data] nm

/-- Keyword test of the `governance` bucket of `categorize_events`. -/
def matchGovernance (nm : List Char) : Bool :=
  kwMatch ["vote".data, "proposal".data, "governance".data] nm

/-- Keyword test of the `bridge` bucket of `categorize_events`. -/
def matchBridge (nm : List Char) : Bool :=
  kwMatch ["bridge".data, "lock".data, "unlock".data, "mint".data, "burn".data] nm

/-- One iteration of the `categorize_events` loop: append the event to
the first bucket whose keyword list matches its lower-cased base name,
`other` when none matches. -/
def addEvent (cs : Categories) (event : String) : Categories :=
  let nm := baseName event
  if matchTransfer nm then { cs with transfer := cs.transfer ++ [event] }
  else if matchSwap nm then { cs with swap := cs.swap ++ [event] }
  else if matchLending nm then { cs with lending := cs.lending ++ [event] }
  else if matchStaking nm then { cs with staking := cs.staking ++ [event] }
  else if matchGovernance nm then { cs with governance := cs.governance ++ [event] }
  else if matchBridge nm then { cs with bridge := cs.bridge ++ [event] }
  else { cs with other := cs.other ++ [event] }

/-- `EventExtractor.categorize_events`: fold the loop body over the
events, starting from the seven empty buckets. -/
def categorizeEvents (events : List String) : Categories :=
  events.foldl addEvent emptyCategories

/-- The returned dict of `categorize_events` rendered as its key/value
pairs in insertion order. -/
def Categories.toPairs (cs : Categories) : List (String × List String) :=
  [("transfer", cs.transfer), ("swap", cs.swap), ("lending", cs.lending),
   ("staking", cs.staking), ("governance", cs.governance),
   ("bridge", cs.bridge), ("other", cs.other)]

/-- Concatenation of the seven buckets in key order. -/
def Categories.joinAll (cs : Categories) : List String :=
  cs.transfer ++ cs.swap ++ cs.lending ++ cs.staking ++
    cs.governance ++ cs.bridge ++ cs.other

/-!
Embedding of `abi_fetcher.py` (class `ABIFetcher`).
-/

/-- An ABI input parameter dict as written in the source's sample tables:
`{"name": ..., "type": ..., "indexed": ...}`. -/
def evInput (name ty : String) (indexed : Bool) : PyVal :=
  PyVal.dict [("name", PyVal.str name), ("type", PyVal.str ty),
              ("indexed", PyVal.bool indexed)]

/-- An ABI event entry dict as written in the source's sample tables:
`{"type": "event", "name": ..., "inputs": [...]}`. -/
def evEntry (name : String) (inputs : List PyVal) : PyVal :=
  PyVal.dict [("type", PyVal.str "event"), ("name", PyVal.str name),
              ("inputs", PyVal.list inputs)]

/-- The `{'verified': ..., 'abi': ...}` dicts produced by the fetcher. -/
structure AbiData where
  verified : Bool
  abi : PyVal

/-- Sample interface `'LendingPool'` from `ABIFetcher.sample_abis`. -/
def lendingPoolSample : AbiData :=
  ⟨true, PyVal.list
    [evEntry "Deposit"
      [evInput "reserve" "address" true, evInput "user" "address" false,
       evInput "onBehalfOf" "address" true, evInput "amount" "uint256" false,
       evInput "referral" "uint16" true],
     evEntry "Withdraw"
      [evInput "reserve" "address" true, evInput "user" "address" true,
       evInput "to" "address" true, evInput "amount" "uint256" false],
     evEntry "Borrow"
      [evInput "reserve" "address" true, evInput "user" "address" false,
       evInput "onBehalfOf" "address" true, evInput "amount" "uint256" false,
       evInput "borrowRateMode" "uint256" false,
       evInput "borrowRate" "uint256" false,
       evInput "referral" "uint16" true]]⟩

/-- Sample interface `'UniswapV2Factory'` from `ABIFetcher.sample_abis`. -/
def uniswapV2FactorySample : AbiData :=
  ⟨true, PyVal.list
    [evEntry "PairCreated"
      [evInput "token0" "address" true, evInput "token1" "address" true,
       evInput "pair" "address" false, evInput "" "uint256" false]]⟩

/-- Sample interface `'UniswapV2Router'` from `ABIFetcher.sample_abis`. -/
def uniswapV2RouterSample : AbiData :=
  ⟨true, PyVal.list
    [evEntry "SwapETHForTokens"
      [evInput "amountIn" "uint256" false, evInput "amountOutMin" "uint256" false,
       evInput "path" "address[]" false, evInput "to" "address" false,
       evInput "deadline" "uint256" false]]⟩

/-- Sample interface `'Comptroller'` from `ABIFetcher.sample_abis`. -/
def comptrollerSample : AbiData :=
  ⟨true, PyVal.list
    [evEntry "MarketEntered"
      [evInput "cToken" "address" false, evInput "account" "address" false],
     evEntry "MarketExited"
      [evInput "cToken" "address" false, evInput "account" "address" false]]⟩

/-- `ABIFetcher.sample_abis` in dict insertion order. -/
def sampleAbis : List (String × AbiData) :=
  [("LendingPool", lendingPoolSample),
   ("UniswapV2Factory", uniswapV2FactorySample),
   ("UniswapV2Router", uniswapV2RouterSample),
   ("Comptroller", comptrollerSample)]

/-- The generic ERC20-style interface built at the end of
`ABIFetcher._get_sample_abi`. -/
def genericAbi : AbiData :=
  ⟨true, PyVal.list
    [evEntry "Transfer"
      [evInput "from" "address" true, evInput "to" "address" true,
       evInput "value" "uint256" false],
     evEntry "Approval"
      [evInput "owner" "address" true, evInput "spender" "address" true,
       evInput "value" "uint256" false]]⟩

/-- `ABIFetcher._get_sample_abi`: return the first sample whose key
occurs (case-insensitively) inside the contract address, the generic
ERC20-style interface otherwise.  The source's `Optional` return type
never carries `None`: both return statements produce a value. -/
def getSampleAbi (contractAddress : String) : Option AbiData :=
  match sampleAbis.find?
      (fun p => containsSub (pyLower p.fst).data (pyLower contractAddress).data) with
  | some p => some p.snd
  | Option.none => some genericAbi

/-- Networks with a configured explorer endpoint
(`ABIFetcher.explorer_apis` keys). -/
def explorerNetworks : List String :=
  ["ethereum", "polygon", "bsc", "arbitrum", "optimism", "avalanche",
   "fantom", "base", "zksync_era"]

/-- Outcome of the single explorer HTTP lookup as observed by
`_fetch_from_explorer`: transport failure (non-200 status, timeout or
exception); a 200 JSON body whose `status`/`result` fields are not a
truthy verified payload; or a verified payload whose embedded interface
JSON either parses to a value or fails to parse. -/
inductive ExplorerResponse where
  | transportFailure
  | notVerified
  | verifiedPayload (parsed : Option PyVal)

/-- `ABIFetcher._fetch_from_explorer`: `None` for an unconfigured
network; otherwise `None` on transport failure, `{'verified': False,
'abi': []}` for an unverified contract, `{'verified': True, 'abi': ...}`
for a parsed payload, and `None` when the payload fails to parse (the
`JSONDecodeError` branch falls through to the final `return None`). -/
def fetchFromExplorer (resp : ExplorerResponse) (contractAddress network : String) :
    Option AbiData :=
  if !(explorerNetworks.contains network) then Option.none
  else
    match resp with
    | ExplorerResponse.transportFailure => Option.none
    | ExplorerResponse.notVerified => some ⟨false, PyVal.list []⟩
    | ExplorerResponse.verifiedPayload (some abi) => some ⟨true, abi⟩
    | ExplorerResponse.verifiedPayload Option.none => Option.none

/-- `ABIFetcher.fetch_abi`: try the explorer; any returned dict (they are
all non-empty, hence truthy) is passed through, and `None` falls back to
`_get_sample_abi`. -/
def fetchAbi (resp : ExplorerResponse) (contractAddress network : String) :
    Option AbiData :=
  match fetchFromExplorer resp contractAddress network with
  | some abiData => some abiData
  | Option.none => getSampleAbi contractAddress

/-- Modelled from the spec (section 4.2 step 3), for comparison with the
source's `getSampleAbi`: the spec's fallback consults the contract's
address *or its name* when matching sample keys; the source function
receives only the address. -/
def specGetSampleAbi (contractAddress contractName : String) : Option AbiData :=
  match sampleAbis.find?
      (fun p => containsSub (pyLower p.fst).data (pyLower contractAddress).data
        || containsSub (pyLower p.fst).data (pyLower contractName).data) with
  | some p => some p.snd
  | Option.none => some genericAbi

/-- Length of a list value (discriminating observation used to separate
distinct `AbiData` values). -/
def pyListLen : PyVal → Nat
  | PyVal.list xs => xs.length
  | _ => 0

/-!
Embedding of `contract_finder.py` (class `ContractFinder`).
-/

/-- An `{'address': ..., 'name': ...}` candidate dict. -/
structure CandidateContract where
  address : String
  name : String
  deriving DecidableEq

/-- Helper for `pyTitle`: the flag records whether the previous character
was alphabetic. -/
def pyTitleAux : Bool → List Char → List Char
  | _, [] => []
  | prevAlpha, c :: cs =>
    if c.isAlpha then
      (if prevAlpha then lowerChar c else upperChar c) :: pyTitleAux true cs
    else
      c :: pyTitleAux false cs

/-- Python `s.title()` (ASCII): upper-case each letter that follows a
non-letter, lower-case the rest. -/
def pyTitle (s : String) : String :=
  String.mk (pyTitleAux false s.data)

/-- Python `s.replace('_', ' ')`. -/
def replaceUnderscoreSpace (s : String) : String :=
  String.mk (s.data.map (fun c => if c == '_' then ' ' else c))

/-- Python `s.replace('_', '')`. -/
def removeUnderscore (s : String) : String :=
  String.mk (s.data.filter (fun c => c != '_'))

/-- Python `s[:n]`. -/
def pyTake (s : String) (n : Nat) : String :=
  String.mk (s.data.take n)

/-- Python `c * n` for a one-character string. -/
def repChar (c : Char) (n : Nat) : String :=
  String.mk (List.replicate n c)

/-- `ContractFinder.known_contracts`: the static registry, keys and
candidate lists verbatim in source order. -/
def knownContracts : List (String × List CandidateContract) :=
  [("aave_ethereum",
    [⟨"0x7d2768dE32b0b80b7a3454c06BdAc94A69DDc7A9", "LendingPool"⟩,
     ⟨"0xB53C1a33016B2DC2fF3653530bfF1848a515c8c5", "LendingPoolAddressesProvider"⟩,
     ⟨"0x057835Ad21a177dbdd3090bB1CAE03EaCF78Fc6d", "LendingPoolCore"⟩]),
   ("uniswap_ethereum",
    [⟨"0x5C69bEe701ef814a2B6a3EDD4B1652CB9cc5aA6f", "UniswapV2Factory"⟩,
     ⟨"0x7a250d5630B4cF539739dF2C5dAcb4c659F2488D", "UniswapV2Router02"⟩,
     ⟨"0x1F98431c8aD98523631AE4a59f267346ea31F984", "UniswapV3Factory"⟩,
     ⟨"0xE592427A0AEce92De3Edee1F18E0157C05861564", "UniswapV3Router"⟩]),
   ("compound_ethereum",
    [⟨"0x3d9819210A31b4961b30EF54bE2aeD79B9c9Cd3B", "Comptroller"⟩,
     ⟨"0x5d3a536E4D6DbD6114cc1Ead35777bAB948E3643", "cDAI"⟩,
     ⟨"0x4Ddc2D193948926D02f9B1fE9e1daa0718270ED5", "cETH"⟩,
     ⟨"0x39AA39c021dfbAe8faC545936693aC917d5E7563", "cUSDC"⟩]),
   ("curve_ethereum",
    [⟨"0x90E00ACe148ca3b23Ac1bC8C240C2a7Dd9c2d7f5", "CurveRegistry"⟩,
     ⟨"0x7002B727Ef8F5571Cb5F9D70D13DBEEb4dFAe9d1", "CurveFactory"⟩,
     ⟨"0xbebc44782c7db0a1a60cb6fe97d0b483032ff1c7", "3PoolCurve"⟩]),
   ("makerdao_ethereum",
    [⟨"0x35D1b3F3D7966A1DFe207aa4514C12a259A0492B", "MakerDAOVault"⟩,
     ⟨"0x9f8F72aA9304c8B593d555F12eF6589cC3A579A2", "MKRToken"⟩]),
   ("sushiswap_ethereum",
    [⟨"0xC0AEe478e3658e2610c5F7A4A2E1777cE9e4f2Ac", "SushiSwapFactory"⟩,
     ⟨"0xd9e1cE17f2641f24aE83637ab66a2cca9C378B9F", "SushiSwapRouter"⟩]),
   ("aave_polygon",
    [⟨"0x8dFf5E27EA6b7AC08EbFdf9eB090F32ee9a30fcf", "LendingPool"⟩,
     ⟨"0x7b6F1eE6b1a8cE4b5c5c5c5c5c5c5c5c5c5c5c5c", "LendingPoolAddressesProvider"⟩]),
   ("sushiswap_polygon",
    [⟨"0xc35DADB65012eC5796536bD9864eD8773aBc74C4", "SushiSwapFactory"⟩,
     ⟨"0x1b02dA8Cb0d097eB8D57A175b88c7D8b47997506", "SushiSwapRouter"⟩]),
   ("quickswap_polygon",
    [⟨"0x5757371414417b8C6CAad45bAeF941aBc7d3Ab32", "QuickSwapFactory"⟩,
     ⟨"0xa5E0829CaCEd8fFDD4De3c43696c57F7D7A678ff", "QuickSwapRouter"⟩]),
   ("pancakeswap_bsc",
    [⟨"0xcA143Ce32Fe78f1f7019d7d551a6402fC5350c73", "PancakeSwapFactory"⟩,
     ⟨"0x10ED43C718714eb63d5aA57B78B54704E256024E", "PancakeSwapRouter"⟩]),
   ("venus_bsc",
    [⟨"0xfD36E2c2a6789Db23113685031d7F16329158384", "VenusComptroller"⟩,
     ⟨"0xe9e7CEA3DedcA5984780Bafc599bD69ADd087D56", "vBUSD"⟩]),
   ("aave_arbitrum",
    [⟨"0x794a61358D6845594F94dc1DB02A252b5b4814aD", "LendingPool"⟩,
     ⟨"0xa97684ead0e402dC232d5A977953DF7ECBaB3CDb", "LendingPoolAddressesProvider"⟩]),
   ("camelot_v2_arbitrum",
    [⟨"0xc873fEcbd354f5A56E00E00B544dEa1A0B8f8D9D", "CamelotV2Factory"⟩,
     ⟨"0xc35DADB65012eC5796536bD9864eD8773aBc74C4", "CamelotV2Router"⟩]),
   ("gmx_arbitrum",
    [⟨"0x4e71A6382eC1B1839a08B8b0a5D9414dA2f4fBf2", "GMXRouter"⟩,
     ⟨"0x90d61eA9D10aD7489f7cF2e0F2A8cB8D0cB8c8c8", "GMXVault"⟩]),
   ("treasuredao_arbitrum",
    [⟨"0x6B175474E89094C44Da98b954EedeAC495271d0F", "MAGICToken"⟩,
     ⟨"0x1B8b64D8F4eA4c8a4c8a4c8a4c8a4c8a4c8a4c8a", "TreasureDAOFarm"⟩]),
   ("arbius_arbitrum",
    [⟨"0x4a24b101728e07a52053c13fb4db2bcf490cabc3", "ArbiusBaseToken"⟩]),
   ("beanstalk_arbitrum",
    [⟨"0xd1a0060ba708bc4bcd3da6c37efa8dedf015fb70", "BeanstalkDiamondCutFacet"⟩]),
   ("gmcash_arbitrum",
    [⟨"0x654c908305021b2eaf881cee774ece1d2bcac5fc", "GMCashToken"⟩]),
   ("chronos_v1_arbitrum",
    [⟨"0x4E352cF164E64ADDA23F02e0e4fE9eE1c8aE5f5A", "ChronosV1Factory"⟩,
     ⟨"0x18aBa6B4e6a92dD3b07B4B0C7A4a4b0C7A4a4b0C", "ChronosV1Router"⟩]),
   ("chronos_v2_arbitrum",
    [⟨"0xC8418F0d7C52F5b1C9aB6d4e7c8d9e0f1a2b3c4d", "ChronosV2Factory"⟩,
     ⟨"0xD0E5C4aF4b4b4b4b4b4b4b4b4b4b4b4b4b4b4b4b", "ChronosV2Router"⟩]),
   ("gridex_arbitrum",
    [⟨"0x2e1e7A4b4e4f4f4f4f4f4f4f4f4f4f4f4f4f4f4f", "GridexV1Core"⟩,
     ⟨"0x3f3f3f3f3f3f3f3f3f3f3f3f3f3f3f3f3f3f3f3f", "GridexV1Router"⟩]),
   ("gyroscope_protocol_arbitrum",
    [⟨"0x8e2e0D5B4E4F4F4F4F4F4F4F4F4F4F4F4F4F4F4F", "GyroscopeVault"⟩,
     ⟨"0x9f9f9f9f9f9f9f9f9f9f9f9f9f9f9f9f9f9f9f9f", "GyroscopeRouter"⟩]),
   ("velodrome_v2_optimism",
    [⟨"0xF1046053a665B31C5D28e8D34dE4684A54b2D2a8", "VelodromeV2Factory"⟩,
     ⟨"0x7E01d4eE1cC7a9c0c6a8a7e8a9b0c1d2e3f4a5b", "VelodromeV2Router"⟩]),
   ("synthetix_optimism",
    [⟨"0x8700dAec35aF8fD88D226aBA8E0e8F8E9b0a1c2d", "SynthetixDebtManager"⟩,
     ⟨"0x8bA1f109551bD432803012645Ac136dd64DBA175", "SynthetixSNXToken"⟩]),
   ("aerodrome_base",
    [⟨"0xc5d5D0c6e5D5D0c6e5D5D0c6e5D5D0c6e5D5D0c6", "AerodromeFactory"⟩,
     ⟨"0xd5d5D0c6e5D5D0c6e5D5D0c6e5D5D0c6e5D5D0c6", "AerodromeRouter"⟩]),
   ("uniswap_base",
    [⟨"0x33128a8fC17869897dcE68Ed026d694621f6FDfD", "UniswapV3Factory"⟩,
     ⟨"0x2626664c2603336E57B271c5C0b26F421741e481", "UniswapV3Router"⟩])]

/-- Python `key in self.known_contracts` / `self.known_contracts[key]`
combined into one lookup. -/
def lookupKnown (key : String) : Option (List CandidateContract) :=
  (knownContracts.find? (fun p => p.fst == key)).map Prod.snd

/-- `ContractFinder._get_protocol_category`: keyword classification of
the lower-cased protocol name, first matching category wins. -/
def getProtocolCategory (protocol : String) : String :=
  let pl := (pyLower protocol).data
  if kwMatch ["lending".data, "borrow".data, "lend".data] pl then "lending"
  else if kwMatch ["dex".data, "swap".data, "exchange".data, "trade".data] pl then "dexs"
  else if kwMatch ["bridge".data, "crosschain".data, "transfer".data] pl then "bridge"
  else if kwMatch ["stake".data, "yield".data, "farm".data, "pool".data] pl then "staking"
  else "other"

/-- `ContractFinder._find_lending_contracts`. -/
def findLendingContracts (protocol network : String) : List CandidateContract :=
  [⟨"0x" ++ pyTake protocol 6 ++ pyTake network 4 ++ repChar '0' 30,
    pyTitle protocol ++ "LendingPool"⟩,
   ⟨"0x" ++ pyTake protocol 6 ++ pyTake network 4 ++ repChar '1' 30,
    pyTitle protocol ++ "AddressProvider"⟩]

/-- `ContractFinder._find_dex_contracts`. -/
def findDexContracts (protocol network : String) : List CandidateContract :=
  [⟨"0x" ++ pyTake protocol 6 ++ pyTake network 4 ++ repChar '0' 30,
    pyTitle (replaceUnderscoreSpace protocol) ++ "Factory"⟩,
   ⟨"0x" ++ pyTake protocol 6 ++ pyTake network 4 ++ repChar '1' 30,
    pyTitle (replaceUnderscoreSpace protocol) ++ "Router"⟩]

/-- `ContractFinder._find_bridge_contracts`. -/
def findBridgeContracts (protocol network : String) : List CandidateContract :=
  [⟨"0x" ++ pyTake protocol 6 ++ pyTake network 4 ++ repChar '0' 30,
    pyTitle protocol ++ "Bridge"⟩,
   ⟨"0x" ++ pyTake protocol 6 ++ pyTake network 4 ++ repChar '1' 30,
    pyTitle protocol ++ "Router"⟩]

/-- `ContractFinder._find_staking_contracts`. -/
def findStakingContracts (protocol network : String) : List CandidateContract :=
  [⟨"0x" ++ pyTake protocol 6 ++ pyTake network 4 ++ repChar '0' 30,
    pyTitle protocol ++ "StakingPool"⟩,
   ⟨"0x" ++ pyTake protocol 6 ++ pyTake network 4 ++ repChar '1' 30,
    pyTitle protocol ++ "RewardDistributor"⟩]

/-- One lower-case hexadecimal digit. -/
def hexChar : Nat → Char
  | 0 => '0' | 1 => '1' | 2 => '2' | 3 => '3'
  | 4 => '4' | 5 => '5' | 6 => '6' | 7 => '7'
  | 8 => '8' | 9 => '9' | 10 => 'a' | 11 => 'b'
  | 12 => 'c' | 13 => 'd' | 14 => 'e' | _ => 'f'

/-- Python `f"{n:040x}"` for `n < 16 ** 40`: the forty hex digits of `n`,
most significant first, zero padded. -/
def hexPad40 (n : Nat) : List Char :=
  (List.range 40).map (fun i => hexChar (n / 16 ^ (39 - i) % 16))

/-- `ContractFinder._generate_fallback_contracts`.  Python's built-in
`hash` of the `protocol_network` string is an environment parameter
`ph` (it is salted per process); the source reduces it modulo `16 ** 40`
with Python's `%`, whose non-negative result is `Int.emod` here. -/
def generateFallbackContracts (ph : String → Int) (protocol network : String) :
    List CandidateContract :=
  let baseHash : Nat := ((ph (protocol ++ "_" ++ network)) % ((16 : Int) ^ 40)).toNat
  let mainContract : CandidateContract :=
    ⟨"0x" ++ String.mk (hexPad40 baseHash),
     pyTitle (removeUnderscore protocol) ++ "Main"⟩
  if kwMatch ["dex".data, "swap".data, "exchange".data] (pyLower protocol).data then
    [mainContract,
     ⟨"0x" ++ String.mk (hexPad40 ((baseHash + 1) % 16 ^ 40)),
      pyTitle (removeUnderscore protocol) ++ "Router"⟩]
  else
    [mainContract]

/-- `ContractFinder.find_contracts`: registry lookup first, then the
category-driven tier, then the hash fallback. -/
def findContracts (ph : String → Int) (protocol network : String) :
    List CandidateContract :=
  match lookupKnown (protocol ++ "_" ++ network) with
  | some cs => cs
  | Option.none =>
    let category := getProtocolCategory protocol
    if category = "lending" then findLendingContracts protocol network
    else if category = "dexs" then findDexContracts protocol network
    else if category = "bridge" then findBridgeContracts protocol network
    else if category = "staking" then findStakingContracts protocol network
    else generateFallbackContracts ph protocol network

/-- Is `c` a hexadecimal digit (either case)? -/
def isHexDigitChar (c : Char) : Bool :=
  c.isDigit || ('a' ≤ c && c ≤ 'f') || ('A' ≤ c && c ≤ 'F')

/-- A well-formed address: `0x` followed by exactly forty hex digits. -/
def isWellFormedAddress (s : String) : Bool :=
  match s.data with
  | '0' :: 'x' :: rest => rest.length == 40 && rest.all isHexDigitChar
  | _ => false

/-!
Embedding of `main.py` (`DefiContractCollector.process_protocol`).
-/

/-- One `{protocol, category, network}` work item. -/
structure WorkItem where
  protocol : String
  category : String
  network : String
  deriving DecidableEq

/-- One output record of `process_protocol`. -/
structure ResultRecord where
  protocol : String
  category : String
  network : String
  contract_address : String
  contract_name : String
  verified : String
  events : List String
  deriving DecidableEq

/-- The unverified fallback record written on every non-success branch of
the per-contract loop. -/
def noRecordFor (pd : WorkItem) (c : CandidateContract) : ResultRecord :=
  ⟨pd.protocol, pd.category, pd.network, c.address, c.name, "no", []⟩

/-- The body of the per-contract `try` block of
`DefiContractCollector.process_protocol`: `fetchRes` is the environment's
outcome of `await fetch_abi(...)` (`Except.error` when that call raised).
A truthy, verified interface flows into `extract_events`; an exception
raised there is caught by the same `except`, which appends the
unverified record. -/
def processContract (pd : WorkItem) (c : CandidateContract)
    (fetchRes : Except Unit (Option AbiData)) : ResultRecord :=
  match fetchRes with
  | Except.error _ => noRecordFor pd c
  | Except.ok abiData =>
    match abiData with
    | some d =>
      if d.verified then
        match extractEventsPy d.abi with
        | Except.ok evs =>
          ⟨pd.protocol, pd.category, pd.network, c.address, c.name, "yes", evs⟩
        | Except.error _ => noRecordFor pd c
      else noRecordFor pd c
    | Option.none => noRecordFor pd c

/-- The per-contract loop of `process_protocol`, indexed so that the
environment `env` can give each iteration its own fetch outcome. -/
def processContracts (pd : WorkItem) (env : Nat → Except Unit (Option AbiData)) :
    Nat → List CandidateContract → List ResultRecord
  | _, [] => []
  | i, c :: rest => processContract pd c (env i) :: processContracts pd env (i + 1) rest

/-- `DefiContractCollector.process_protocol`: an exception from
`find_contracts` (outer `try`) yields `[]`; an empty candidate list
yields `[]`; otherwise the per-contract loop runs over all candidates. -/
def processProtocol (pd : WorkItem)
    (findOutcome : Except Unit (List CandidateContract))
    (env : Nat → Except Unit (Option AbiData)) : List ResultRecord :=
  match findOutcome with
  | Except.error _ => []
  | Except.ok contracts =>
    if contracts.isEmpty then []
    else processContracts pd env 0 contracts

/-- An exception was raised inside the per-contract `try` block: either
the `fetch_abi` call itself raised, or the fetched interface was verified
and `extract_events` raised on its `abi` value. -/
def RaisedDuring (fetchRes : Except Unit (Option AbiData)) : Prop :=
  fetchRes = Except.error () ∨
    ∃ d, fetchRes = Except.ok (some d) ∧ d.verified = true ∧
      ∃ e, extractEventsPy d.abi = Except.error e

/-!
Supporting lemmas.
-/

theorem exceptBindOk {e α β : Type} (a : α) (f : α → Except e β) :
    (Except.ok a >>= f) = f a := rfl

theorem exceptBindErr {e α β : Type} (x : e) (f : α → Except e β) :
    ((Except.error x : Except e α) >>= f) = Except.error x := rfl

theorem exceptPureEq {e α : Type} (a : α) :
    (pure a : Except e α) = Except.ok a := rfl

theorem stringDataAppend (s t : String) : (s ++ t).data = s.data ++ t.data := by
  cases s
  cases t
  rfl

theorem hexChar_isHex (n : Nat) : isHexDigitChar (hexChar n) = true := by
  unfold hexChar
  split <;> rfl

theorem hexPad40_length (n : Nat) : (hexPad40 n).length = 40 := by
  simp [hexPad40]

theorem hexPad40_all (n : Nat) : (hexPad40 n).all isHexDigitChar = true := by
  rw [List.all_eq_true]
  intro c hc
  rw [hexPad40, List.mem_map] at hc
  obtain ⟨i, hi, hic⟩ := hc
  rw [← hic]
  exact hexChar_isHex _

theorem fallbackAddr_wf (n : Nat) :
    isWellFormedAddress ("0x" ++ String.mk (hexPad40 n)) = true := by
  have h : ("0x" ++ String.mk (hexPad40 n)).data = '0' :: 'x' :: hexPad40 n := by
    rw [stringDataAppend]
    rfl
  unfold isWellFormedAddress
  rw [h]
  simp [hexPad40_length, hexPad40_all]

theorem getSampleAbi_isSome (addr : String) : (getSampleAbi addr).isSome = true := by
  unfold getSampleAbi
  cases h : sampleAbis.find?
      (fun p => containsSub (pyLower p.fst).data (pyLower addr).data) <;> simp

/-!
Claim theorems.
-/

/-- Claim C1: for every `(protocol, network)` pair whose key
`protocol ++ "_" ++ network` is present in the known registry,
`find_contracts` returns exactly the registry's stored candidate list
(no other tier is consulted: the result is the stored list itself,
whatever the hash environment `ph` and the heuristic tiers would say). -/
theorem spec_C1_registry_verbatim (ph : String → Int) (protocol network : String)
    (cs : List CandidateContract)
    (h : lookupKnown (protocol ++ "_" ++ network) = some cs) :
    findContracts ph protocol network = cs := by
  unfold findContracts
  rw [h]

/-- Witness for C1 at the registry pair `("aave", "ethereum")`. -/
theorem spec_C1_witness :
    lookupKnown ("aave" ++ "_" ++ "ethereum") =
      some [⟨"0x7d2768dE32b0b80b7a3454c06BdAc94A69DDc7A9", "LendingPool"⟩,
            ⟨"0xB53C1a33016B2DC2fF3653530bfF1848a515c8c5", "LendingPoolAddressesProvider"⟩,
            ⟨"0x057835Ad21a177dbdd3090bB1CAE03EaCF78Fc6d", "LendingPoolCore"⟩] ∧
    findContracts (fun _ => 0) "aave" "ethereum" =
      [⟨"0x7d2768dE32b0b80b7a3454c06BdAc94A69DDc7A9", "LendingPool"⟩,
       ⟨"0xB53C1a33016B2DC2fF3653530bfF1848a515c8c5", "LendingPoolAddressesProvider"⟩,
       ⟨"0x057835Ad21a177dbdd3090bB1CAE03EaCF78Fc6d", "LendingPoolCore"⟩] :=
  ⟨rfl, spec_C1_registry_verbatim (fun _ => 0) "aave" "ethereum" _ rfl⟩

/-- Counterexample to claim C2: `("myswap", "polygon")` is absent from
the registry, yet no candidate returned by `find_contracts` has a
well-formed `0x`-prefixed 40-hex-digit address — the category tier
builds `0x` ++ `protocol[:6]` ++ `network[:4]` ++ padding, and `m`,
`y`, `s`, `w`, `p`, `o`, `l` are not hex digits. -/
theorem spec_C2_cex :
    lookupKnown ("myswap" ++ "_" ++ "polygon") = Option.none ∧
    (findContracts (fun _ => 0) "myswap" "polygon").any
      (fun c => isWellFormedAddress c.address) = false :=
  ⟨rfl, rfl⟩

/-- Claim C2 as amended: for every pair absent from the registry,
`find_contracts` returns a non-empty candidate list; and whenever the
hash-based fallback tier produces the candidates (the protocol matches
no category keywords), at least one returned address is a well-formed
`0x`-prefixed 40-hex-digit string. -/
theorem spec_C2_amended (ph : String → Int) (protocol network : String)
    (h : lookupKnown (protocol ++ "_" ++ network) = Option.none) :
    findContracts ph protocol network ≠ [] ∧
    (getProtocolCategory protocol = "other" →
      (findContracts ph protocol network).any
        (fun c => isWellFormedAddress c.address) = true) := by
  have hrw : findContracts ph protocol network =
      (if getProtocolCategory protocol = "lending" then
        findLendingContracts protocol network
      else if getProtocolCategory protocol = "dexs" then
        findDexContracts protocol network
      else if getProtocolCategory protocol = "bridge" then
        findBridgeContracts protocol network
      else if getProtocolCategory protocol = "staking" then
        findStakingContracts protocol network
      else generateFallbackContracts ph protocol network) := by
    unfold findContracts
    rw [h]
  rw [hrw]
  constructor
  · split_ifs
    · simp [findLendingContracts]
    · simp [findDexContracts]
    · simp [findBridgeContracts]
    · simp [findStakingContracts]
    · unfold generateFallbackContracts
      split_ifs <;> simp
  · intro hcat
    rw [hcat]
    simp only [String.reduceEq, if_false]
    unfold generateFallbackContracts
    split_ifs <;> simp [fallbackAddr_wf]

/-- Witness for C2 (amended) at `("foobar", "mars")`: absent from the
registry, no category keyword matches, and the fallback address is
well-formed. -/
theorem spec_C2_witness :
    lookupKnown ("foobar" ++ "_" ++ "mars") = Option.none ∧
    getProtocolCategory "foobar" = "other" ∧
    findContracts (fun _ => 0) "foobar" "mars" ≠ [] ∧
    (findContracts (fun _ => 0) "foobar" "mars").any
      (fun c => isWellFormedAddress c.address) = true :=
  ⟨rfl, rfl,
   (spec_C2_amended (fun _ => 0) "foobar" "mars" rfl).1,
   (spec_C2_amended (fun _ => 0) "foobar" "mars" rfl).2 rfl⟩

/-- Claim C3: `fetch_abi` never returns `None`: whatever the explorer
outcome (unsupported network, transport failure, parse failure, … ) and
whatever the address, the sample/generic fallback guarantees a result. -/
theorem spec_C3_fetch_abi_total (resp : ExplorerResponse)
    (contractAddress network : String) :
    (fetchAbi resp contractAddress network).isSome = true := by
  unfold fetchAbi
  cases h : fetchFromExplorer resp contractAddress network with
  | some d => rfl
  | none => exact getSampleAbi_isSome contractAddress

/-- Counterexample to claim C4: the source's fallback consults only the
contract address.  For address `"0x1"` and contract name
`"LendingPool"`, the spec's address-or-name rule picks the
`LendingPool` sample (3 events), while the code returns the generic
interface (2 events). -/
theorem spec_C4_cex :
    getSampleAbi "0x1" ≠ specGetSampleAbi "0x1" "LendingPool" := by
  intro h
  exact absurd (congrArg (Option.map (fun d => pyListLen d.abi)) h) (by decide)

/-- Claim C4 as amended: the fallback returns the first built-in sample
whose key occurs case-insensitively as a substring of the contract's
*address* (the contract's name is not consulted — the function receives
only the address); when no sample key matches, it returns the generic
ERC20-style interface, whose abi contains exactly the two events
`Transfer` and `Approval` and whose verified flag is true. -/
theorem spec_C4_amended :
    (∀ addr : String,
      getSampleAbi addr =
        some (if containsSub (pyLower "LendingPool").data (pyLower addr).data then
            lendingPoolSample
          else if containsSub (pyLower "UniswapV2Factory").data (pyLower addr).data then
            uniswapV2FactorySample
          else if containsSub (pyLower "UniswapV2Router").data (pyLower addr).data then
            uniswapV2RouterSample
          else if containsSub (pyLower "Comptroller").data (pyLower addr).data then
            comptrollerSample
          else genericAbi)) ∧
    genericAbi.verified = true ∧
    getEventNamesPy genericAbi.abi =
      Except.ok [PyVal.str "Transfer", PyVal.str "Approval"] := by
  refine ⟨?_, rfl, rfl⟩
  intro addr
  unfold getSampleAbi sampleAbis
  by_cases h1 : containsSub (pyLower "LendingPool").data (pyLower addr).data <;>
    by_cases h2 : containsSub (pyLower "UniswapV2Factory").data (pyLower addr).data <;>
      by_cases h3 : containsSub (pyLower "UniswapV2Router").data (pyLower addr).data <;>
        by_cases h4 : containsSub (pyLower "Comptroller").data (pyLower addr).data <;>
          simp [List.find?, h1, h2, h3, h4]

/-- Claim C5: round-trip of the signature grammar on the synthetic event
`Foo(a uint256 indexed, b address)`: extraction yields exactly that one
signature and validation accepts it. -/
theorem spec_C5_roundtrip :
    extractEventsPy (PyVal.list
      [evEntry "Foo" [evInput "a" "uint256" true, evInput "b" "address" false]]) =
      Except.ok ["Foo(a uint256 indexed, b address)"] ∧
    validateEventSignature "Foo(a uint256 indexed, b address)" = true :=
  ⟨rfl, rfl⟩

theorem processContracts_length (pd : WorkItem)
    (env : Nat → Except Unit (Option AbiData)) :
    ∀ (cs : List CandidateContract) (i : Nat),
      (processContracts pd env i cs).length = cs.length := by
  intro cs
  induction cs with
  | nil => intro i; rfl
  | cons c rest ih =>
    intro i
    simp [processContracts, ih]

theorem processContracts_getElem (pd : WorkItem)
    (env : Nat → Except Unit (Option AbiData)) :
    ∀ (cs : List CandidateContract) (i j : Nat),
      (processContracts pd env i cs)[j]? =
        (cs[j]?).map (fun c => processContract pd c (env (i + j))) := by
  intro cs
  induction cs with
  | nil => intro i j; simp [processContracts]
  | cons c rest ih =>
    intro i j
    cases j with
    | zero => simp [processContracts]
    | succ j2 =>
      have harith : i + 1 + j2 = i + (j2 + 1) := by omega
      simp [processContracts, ih, harith]

theorem processContract_raised (pd : WorkItem) (c : CandidateContract)
    (fetchRes : Except Unit (Option AbiData)) (h : RaisedDuring fetchRes) :
    processContract pd c fetchRes = noRecordFor pd c := by
  rcases h with h | ⟨d, hd, hv, e, he⟩
  · rw [h]
    rfl
  · rw [hd]
    simp [processContract, hv, he]

/-- Claim C6: if handling candidate `i` raises (fetch raised, or the
interface was verified and extraction raised), `process_protocol` still
records that candidate as unverified with no events, and all the other
candidates of the protocol are still processed (one record per
candidate). -/
theorem spec_C6_contract_isolation (pd : WorkItem)
    (contracts : List CandidateContract)
    (env : Nat → Except Unit (Option AbiData)) (i : Nat)
    (c : CandidateContract) (hc : contracts[i]? = some c)
    (hr : RaisedDuring (env i)) :
    (processProtocol pd (Except.ok contracts) env).length = contracts.length ∧
    (processProtocol pd (Except.ok contracts) env)[i]? =
      some (noRecordFor pd c) := by
  have hne : contracts.isEmpty = false := by
    cases contracts
    · simp at hc
    · rfl
  have hP : processProtocol pd (Except.ok contracts) env =
      processContracts pd env 0 contracts := by
    simp [processProtocol, hne]
  rw [hP]
  constructor
  · exact processContracts_length pd env contracts 0
  · rw [processContracts_getElem pd env contracts 0 i, hc]
    simp [processContract_raised pd c (env i) hr]

/-- Witness for C6: a single-candidate protocol whose fetch raises still
yields exactly one record, the unverified one. -/
theorem spec_C6_witness :
    (processProtocol ⟨"p", "cat", "n"⟩ (Except.ok [⟨"0xa", "A"⟩])
      (fun _ => Except.error ())).length = 1 ∧
    (processProtocol ⟨"p", "cat", "n"⟩ (Except.ok [⟨"0xa", "A"⟩])
      (fun _ => Except.error ()))[0]? =
      some (noRecordFor ⟨"p", "cat", "n"⟩ ⟨"0xa", "A"⟩) :=
  spec_C6_contract_isolation ⟨"p", "cat", "n"⟩ [⟨"0xa", "A"⟩]
    (fun _ => Except.error ()) 0 ⟨"0xa", "A"⟩ rfl (Or.inl rfl)

/-- Counterexample to claim C7: `extract_events` applied to a list
containing a non-dict entry raises `AttributeError` (the
`item.get('type')` access is outside any `try`). -/
theorem spec_C7_cex :
    extractEventsPy (PyVal.list [PyVal.str "x"]) =
      Except.error PyErr.attributeError :=
  rfl

theorem extractLoop_dicts (items : List PyVal)
    (h : ∀ x ∈ items, ∃ kvs, x = PyVal.dict kvs) :
    (extractLoop items).isOk = true := by
  induction items with
  | nil => rfl
  | cons it rest ih =>
    obtain ⟨kvs, hk⟩ := h it (List.mem_cons_self it rest)
    have hrest := ih (fun x hx => h x (List.mem_cons_of_mem it hx))
    subst hk
    cases hE : extractLoop rest with
    | ok l =>
      simp only [extractLoop, pyGet, pyGetD, hE, exceptBindOk, exceptPureEq]
      split <;> rfl
    | error e =>
      rw [hE] at hrest
      simp [Except.isOk, Except.toBool] at hrest

/-- Claim C7 as amended: `extract_events` returns `[]` without raising
for every non-list input, and returns without raising for every list
whose entries are all dicts (malformed dict entries contribute nothing);
but a list containing a non-dict entry raises `AttributeError`. -/
theorem spec_C7_amended (v : PyVal) :
    ((∀ xs, v ≠ PyVal.list xs) → extractEventsPy v = Except.ok []) ∧
    (∀ xs, v = PyVal.list xs →
      (∀ x ∈ xs, ∃ kvs, x = PyVal.dict kvs) →
      (extractEventsPy v).isOk = true) := by
  constructor
  · intro h
    cases v with
    | list xs => exact absurd rfl (h xs)
    | none => rfl
    | bool b => rfl
    | int n => rfl
    | str s => rfl
    | dict kvs => rfl
  · intro xs hxs hdicts
    subst hxs
    exact extractLoop_dicts xs hdicts

/-- Witness for C7 (amended): a non-list input returns `[]`, and an
all-dict list returns without an error. -/
theorem spec_C7_witness :
    extractEventsPy (PyVal.str "hi") = Except.ok [] ∧
    (extractEventsPy (PyVal.list [PyVal.dict []])).isOk = true :=
  ⟨(spec_C7_amended (PyVal.str "hi")).1 (fun xs h => PyVal.noConfusion h),
   (spec_C7_amended (PyVal.list [PyVal.dict []])).2 [PyVal.dict []] rfl
     (fun x hx => ⟨[], by rw [List.mem_singleton] at hx; exact hx⟩)⟩

theorem processContract_inv (pd : WorkItem) (c : CandidateContract)
    (fetchRes : Except Unit (Option AbiData)) :
    ((processContract pd c fetchRes).verified = "yes" ∨
      (processContract pd c fetchRes).verified = "no") ∧
    ((processContract pd c fetchRes).verified = "no" →
      (processContract pd c fetchRes).events = []) := by
  cases fetchRes with
  | error e => simp [processContract, noRecordFor]
  | ok od =>
    cases od with
    | none => simp [processContract, noRecordFor]
    | some d =>
      cases hv : d.verified with
      | false => simp [processContract, noRecordFor, hv]
      | true =>
        cases he : extractEventsPy d.abi with
        | ok evs => simp [processContract, noRecordFor, hv, he]
        | error e => simp [processContract, noRecordFor, hv, he]

theorem mem_processContracts (pd : WorkItem)
    (env : Nat → Except Unit (Option AbiData)) :
    ∀ (cs : List CandidateContract) (i : Nat) (r : ResultRecord),
      r ∈ processContracts pd env i cs →
      ∃ c k, r = processContract pd c (env k) := by
  intro cs
  induction cs with
  | nil => intro i r h; simp [processContracts] at h
  | cons c rest ih =>
    intro i r h
    rw [processContracts, List.mem_cons] at h
    rcases h with h | h
    · exact ⟨c, i, h⟩
    · exact ih (i + 1) r h

/-- Claim C9: every record `process_protocol` ever appends has
`verified` equal to `"yes"` or `"no"`, and a record with `verified =
"no"` has an empty events list — on the normal path and on the
per-contract exception path alike. -/
theorem spec_C9_record_invariant (pd : WorkItem)
    (findOutcome : Except Unit (List CandidateContract))
    (env : Nat → Except Unit (Option AbiData)) (r : ResultRecord)
    (h : r ∈ processProtocol pd findOutcome env) :
    (r.verified = "yes" ∨ r.verified = "no") ∧
    (r.verified = "no" → r.events = []) := by
  cases findOutcome with
  | error e => simp [processProtocol] at h
  | ok contracts =>
    cases hne : contracts.isEmpty with
    | true => simp [processProtocol, hne] at h
    | false =>
      rw [show processProtocol pd (Except.ok contracts) env =
          processContracts pd env 0 contracts by simp [processProtocol, hne]] at h
      obtain ⟨c, k, hr⟩ := mem_processContracts pd env contracts 0 r h
      rw [hr]
      exact processContract_inv pd c (env k)

/-- Witness for C9 at a concrete protocol run whose single fetch
raises. -/
theorem spec_C9_witness :
    ((noRecordFor ⟨"p", "cat", "n"⟩ ⟨"0xa", "A"⟩).verified = "yes" ∨
      (noRecordFor ⟨"p", "cat", "n"⟩ ⟨"0xa", "A"⟩).verified = "no") ∧
    ((noRecordFor ⟨"p", "cat", "n"⟩ ⟨"0xa", "A"⟩).verified = "no" →
      (noRecordFor ⟨"p", "cat", "n"⟩ ⟨"0xa", "A"⟩).events = []) :=
  spec_C9_record_invariant ⟨"p", "cat", "n"⟩ (Except.ok [⟨"0xa", "A"⟩])
    (fun _ => Except.error ()) (noRecordFor ⟨"p", "cat", "n"⟩ ⟨"0xa", "A"⟩)
    (by decide)

theorem foldl_bucket_transfer :
    ∀ (es : List String) (cs : Categories),
      (es.foldl addEvent cs).transfer =
        cs.transfer ++ es.filter (fun e => matchTransfer (baseName e)) := by
  intro es
  induction es with
  | nil => intro cs; simp
  | cons e es ih =>
    intro cs
    rw [List.foldl_cons, ih, List.filter_cons]
    simp only [addEvent]
    split_ifs with g1 g2 g3 g4 g5 g6 <;> simp_all [List.append_assoc]

theorem foldl_bucket_swap :
    ∀ (es : List String) (cs : Categories),
      (es.foldl addEvent cs).swap =
        cs.swap ++ es.filter
          (fun e => !matchTransfer (baseName e) && matchSwap (baseName e)) := by
  intro es
  induction es with
  | nil => intro cs; simp
  | cons e es ih =>
    intro cs
    rw [List.foldl_cons, ih, List.filter_cons]
    simp only [addEvent]
    split_ifs with g1 g2 g3 g4 g5 g6 <;> simp_all [List.append_assoc]

theorem foldl_bucket_lending :
    ∀ (es : List String) (cs : Categories),
      (es.foldl addEvent cs).lending =
        cs.lending ++ es.filter
          (fun e => !matchTransfer (baseName e) && !matchSwap (baseName e) &&
            matchLending (baseName e)) := by
  intro es
  induction es with
  | nil => intro cs; simp
  | cons e es ih =>
    intro cs
    rw [List.foldl_cons, ih, List.filter_cons]
    simp only [addEvent]
    split_ifs with g1 g2 g3 g4 g5 g6 <;> simp_all [List.append_assoc]

theorem foldl_bucket_staking :
    ∀ (es : List String) (cs : Categories),
      (es.foldl addEvent cs).staking =
        cs.staking ++ es.filter
          (fun e => !matchTransfer (baseName e) && !matchSwap (baseName e) &&
            !matchLending (baseName e) && matchStaking (baseName e)) := by
  intro es
  induction es with
  | nil => intro cs; simp
  | cons e es ih =>
    intro cs
    rw [List.foldl_cons, ih, List.filter_cons]
    simp only [addEvent]
    split_ifs with g1 g2 g3 g4 g5 g6 <;> simp_all [List.append_assoc]

theorem foldl_bucket_governance :
    ∀ (es : List String) (cs : Categories),
      (es.foldl addEvent cs).governance =
        cs.governance ++ es.filter
          (fun e => !matchTransfer (baseName e) && !matchSwap (baseName e) &&
            !matchLending (baseName e) && !matchStaking (baseName e) &&
            matchGovernance (baseName e)) := by
  intro es
  induction es with
  | nil => intro cs; simp
  | cons e es ih =>
    intro cs
    rw [List.foldl_cons, ih, List.filter_cons]
    simp only [addEvent]
    split_ifs with g1 g2 g3 g4 g5 g6 <;> simp_all [List.append_assoc]

theorem foldl_bucket_bridge :
    ∀ (es : List String) (cs : Categories),
      (es.foldl addEvent cs).bridge =
        cs.bridge ++ es.filter
          (fun e => !matchTransfer (baseName e) && !matchSwap (baseName e) &&
            !matchLending (baseName e) && !matchStaking (baseName e) &&
            !matchGovernance (baseName e) && matchBridge (baseName e)) := by
  intro es
  induction es with
  | nil => intro cs; simp
  | cons e es ih =>
    intro cs
    rw [List.foldl_cons, ih, List.filter_cons]
    simp only [addEvent]
    split_ifs with g1 g2 g3 g4 g5 g6 <;> simp_all [List.append_assoc]

theorem foldl_bucket_other :
    ∀ (es : List String) (cs : Categories),
      (es.foldl addEvent cs).other =
        cs.other ++ es.filter
          (fun e => !matchTransfer (baseName e) && !matchSwap (baseName e) &&
            !matchLending (baseName e) && !matchStaking (baseName e) &&
            !matchGovernance (baseName e) && !matchBridge (baseName e)) := by
  intro es
  induction es with
  | nil => intro cs; simp
  | cons e es ih =>
    intro cs
    rw [List.foldl_cons, ih, List.filter_cons]
    simp only [addEvent]
    split_ifs with g1 g2 g3 g4 g5 g6 <;> simp_all [List.append_assoc]

/-- Claim C8: `categorize_events` assigns each signature by keyword match
on the lower-cased base name, testing transfer, swap, lending, staking,
governance, bridge in order with first match winning and the rest going
to `other` (each bucket is the filter of the input by "my keywords match
and no earlier category's do"), and on the concrete input
`["Transfer(...)", "Deposit(...)", "VoteCast(...)", "Foo(...)"]` it
places `Transfer` under transfer, `Deposit` under lending, `VoteCast`
under governance and `Foo` under other. -/
theorem spec_C8_categorize :
    (∀ events : List String,
      (categorizeEvents events).transfer =
        events.filter (fun e => matchTransfer (baseName e)) ∧
      (categorizeEvents events).swap =
        events.filter
          (fun e => !matchTransfer (baseName e) && matchSwap (baseName e)) ∧
      (categorizeEvents events).lending =
        events.filter
          (fun e => !matchTransfer (baseName e) && !matchSwap (baseName e) &&
            matchLending (baseName e)) ∧
      (categorizeEvents events).staking =
        events.filter
          (fun e => !matchTransfer (baseName e) && !matchSwap (baseName e) &&
            !matchLending (baseName e) && matchStaking (baseName e)) ∧
      (categorizeEvents events).governance =
        events.filter
          (fun e => !matchTransfer (baseName e) && !matchSwap (baseName e) &&
            !matchLending (baseName e) && !matchStaking (baseName e) &&
            matchGovernance (baseName e)) ∧
      (categorizeEvents events).bridge =
        events.filter
          (fun e => !matchTransfer (baseName e) && !matchSwap (baseName e) &&
            !matchLending (baseName e) && !matchStaking (baseName e) &&
            !matchGovernance (baseName e) && matchBridge (baseName e)) ∧
      (categorizeEvents events).other =
        events.filter
          (fun e => !matchTransfer (baseName e) && !matchSwap (baseName e) &&
            !matchLending (baseName e) && !matchStaking (baseName e) &&
            !matchGovernance (baseName e) && !matchBridge (baseName e))) ∧
    categorizeEvents ["Transfer(...)", "Deposit(...)", "VoteCast(...)", "Foo(...)"] =
      ⟨["Transfer(...)"], [], ["Deposit(...)"], [], ["VoteCast(...)"], [],
       ["Foo(...)"]⟩ := by
  constructor
  · intro events
    refine ⟨?_, ?_, ?_, ?_, ?_, ?_, ?_⟩
    · simpa [emptyCategories] using foldl_bucket_transfer events emptyCategories
    · simpa [emptyCategories] using foldl_bucket_swap events emptyCategories
    · simpa [emptyCategories] using foldl_bucket_lending events emptyCategories
    · simpa [emptyCategories] using foldl_bucket_staking events emptyCategories
    · simpa [emptyCategories] using foldl_bucket_governance events emptyCategories
    · simpa [emptyCategories] using foldl_bucket_bridge events emptyCategories
    · simpa [emptyCategories] using foldl_bucket_other events emptyCategories
  · rfl

theorem addEvent_joinAll_perm (cs : Categories) (e : String) :
    List.Perm (addEvent cs e).joinAll (cs.joinAll ++ [e]) := by
  rw [List.perm_iff_count]
  intro a
  simp only [addEvent]
  split_ifs <;>
    simp [Categories.joinAll, List.count_append, List.count_cons,
      List.count_nil] <;> omega

theorem foldl_joinAll_perm :
    ∀ (es : List String) (cs : Categories),
      List.Perm ((es.foldl addEvent cs).joinAll) (cs.joinAll ++ es) := by
  intro es
  induction es with
  | nil => intro cs; simp
  | cons e es ih =>
    intro cs
    rw [List.foldl_cons]
    refine (ih (addEvent cs e)).trans ?_
    refine ((addEvent_joinAll_perm cs e).append_right es).trans ?_
    have hq : (cs.joinAll ++ [e]) ++ es = cs.joinAll ++ e :: es := by
      simp
    rw [hq]

/-- Claim C10: `categorize_events` returns a partition: the result dict
always has exactly the seven keys in their fixed order, and the
concatenation of the seven bucket lists is a permutation of the input
(every input signature appears exactly once across the buckets, so the
total count equals the input length). -/
theorem spec_C10_partition (events : List String) :
    (categorizeEvents events).toPairs.map Prod.fst =
      ["transfer", "swap", "lending", "staking", "governance", "bridge",
       "other"] ∧
    List.Perm ((categorizeEvents events).toPairs.map Prod.snd).flatten events := by
  constructor
  · rfl
  · have heq : ((categorizeEvents events).toPairs.map Prod.snd).flatten =
        (categorizeEvents events).joinAll := by
      simp [Categories.toPairs, Categories.joinAll]
    rw [heq]
    have h := foldl_joinAll_perm events emptyCategories
    simpa [Categories.joinAll, emptyCategories] using h
